import Mathlib

/-!
Shallow embedding of the ZISO compressor (`src/ziso.cpp`) and a verification of
the specification's claims about it.  Machine-integer arithmetic is modelled on
`ℕ` with an explicit `% 2 ^ 32` wherever the source computes in `uint32_t`.
The LZ4 codec is an external black box; its per-block result (byte count and
destination contents) enters the model as explicit parameters.
-/

/-- Modulus of `uint32_t` arithmetic. -/
def UINT32_MOD : ℕ := 4294967296

/-- ziso.cpp lines 337-357, `pos_to_index`.  `filePosition` is an in-out
reference parameter of the source; the model returns
`(index entry, updated filePosition)`.  `indexPosition` is a `uint32_t`, so
the right shift stored into it and both left shifts computed from it truncate
modulo `2 ^ 32` (the `uint64_t` `newFilePosition` receives the already
truncated 32-bit value).  The raw-block flag is or-ed into bit 31. -/
def pos_to_index (filePosition : ℕ) (shift : ℕ) (uncompressed : Bool) : ℕ × ℕ :=
  let indexPosition := (filePosition >>> shift) % UINT32_MOD
  let newFilePosition := (indexPosition <<< shift) % UINT32_MOD
  let indexPosition' :=
    if newFilePosition < filePosition then (indexPosition + 1) % UINT32_MOD
    else indexPosition
  let newFilePosition' :=
    if newFilePosition < filePosition then (indexPosition' <<< shift) % UINT32_MOD
    else newFilePosition
  (indexPosition' ||| (if uncompressed then 2 ^ 31 else 0), newFilePosition')

/-- ziso.cpp lines 359-363, `index_to_pos`.  The shifted offset
`(indexData & 0x7FFFFFFF) << shift` is computed in `uint32_t` before being
widened to the `uint64_t` return value, hence the modulus.  The second
component is the recovered raw-block flag (bit 31). -/
def index_to_pos (indexData : ℕ) (shift : ℕ) : ℕ × Bool :=
  (((indexData &&& 0x7FFFFFFF) <<< shift) % UINT32_MOD,
   (indexData &&& 0x80000000) != 0)

/-- ziso.cpp lines 298-335, `compress_block`.  `codecOut` is the byte count
returned by the LZ4 call and `codecDst` the destination buffer contents after
that call (both external inputs to this model); `uncompressed` is the in-out
flag's value before the call.  The result is
`(return value, final flag, final destination buffer)`: on the verbatim
fallback the first `srcSize` destination bytes are overwritten with the
source bytes (`memcpy`), and on the capacity hard failure the function
returns 0 leaving the flag unchanged. -/
def compress_block (codecOut : ℕ) (codecDst src : List ℕ) (srcSize dstSize : ℕ)
    (uncompressed : Bool) : ℕ × Bool × List ℕ :=
  if codecOut = 0 ∨ codecOut > srcSize then
    if dstSize < srcSize then (0, uncompressed, codecDst)
    else (srcSize, true, src.take srcSize ++ codecDst.drop srcSize)
  else (codecOut, false, codecDst)

/-- ziso.cpp lines 157-178: selection of `fileHeader.indexShift` from the
input size.  The 16 GB branch (line 158) is an independent `if`, while the
8 GB / 4 GB / 2 GB branches (lines 163-177) form an `else if` chain, exactly
as in the source.  The initial value 0 comes from the `zheader` defaults in
the header file outside `src/`; it is modelled from the spec ("Files with
less than 2GB doesn't need to shift", line 178).  The threshold subtractions
are exact here because `headerSize` is far below every constant. -/
def select_shift (inputSize headerSize : ℕ) : ℕ :=
  let s := 0
  let s := if inputSize > 0x3FFFFFFFF - headerSize then 4 else s
  if inputSize > 0x1FFFFFFFF - headerSize then 3
  else if inputSize > 0xFFFFFFFF - headerSize then 2
  else if inputSize > 0x7FFFFFFF - headerSize then 1
  else s

/-- ziso.cpp lines 424-447, the `-b` (long form `--block-size`) case of
`get_options`:
`none` models the rejecting error return (`!temp_argument || temp_argument <
512`), `some v` the value stored into `options.blockSize`, which the source
truncates with the `(uint8_t)` cast on line 438. -/
def parse_block_size (value : ℕ) : Option ℕ :=
  if value = 0 ∨ value < 512 then none else some (value % 256)

/-- Round-half-to-even of the fraction `num / den` (with `den ≠ 0`) to an
integer, the IEEE-754 default rounding used by the float model below. -/
def roundHalfEven (num den : ℕ) : ℕ :=
  let q := num / den
  let r := num % den
  if 2 * r < den then q
  else if den < 2 * r then q + 1
  else if q % 2 = 0 then q else q + 1

/-- Floor of the base-2 logarithm of `n`, valid on the whole `uint64_t`
domain `n < 2 ^ 64` (and 0 at `n = 0`), written without recursion so that it
evaluates inside the kernel. -/
def log2floor (n : ℕ) : ℕ :=
  ((List.range 64).filter (fun k => 2 ^ k ≤ n)).length - 1

/-- Floor of the base-2 logarithm of the positive rational `a / b`
(for `a, b ≥ 1`), as an integer. -/
def qlog2 (a b : ℕ) : ℤ :=
  if b * 2 ^ log2floor a ≤ a * 2 ^ log2floor b then (log2floor a : ℤ) - log2floor b
  else (log2floor a : ℤ) - log2floor b - 1

/-- Conversion of an unsigned integer to IEEE-754 binary32, the `(float)`
cast of ziso.cpp line 149: round to nearest with ties to even onto a 24-bit
significand.  The result of such a conversion is integral, so it is returned
as a natural number. -/
def fpOfNat (x : ℕ) : ℕ :=
  if log2floor x ≤ 23 then x
  else
    let e := log2floor x - 23
    roundHalfEven x (2 ^ e) * 2 ^ e

/-- Binary32 division of two exactly representable values `a / b` followed by
`ceil`, as in ziso.cpp line 149: the exact rational quotient is rounded to the
nearest binary32 value (24-bit significand, ties to even); the subsequent
`ceil` of a float is exact. -/
def fpDivCeil (a b : ℕ) : ℕ :=
  let e : ℤ := qlog2 a b - 23
  if 0 ≤ e then roundHalfEven a (b * 2 ^ e.toNat) * 2 ^ e.toNat
  else
    let d := 2 ^ (-e).toNat
    (roundHalfEven (a * d) b + d - 1) / d

/-- ziso.cpp line 149:
`blocksNumber = ceil((float)inputSize / settings.blockSize) + 1;` — both
operands are converted to `float`, the division and `ceil` happen in floating
point, and the result is stored into the `uint32_t` `blocksNumber`. -/
def blocksNumber_code (inputSize blockSize : ℕ) : ℕ :=
  (fpDivCeil (fpOfNat inputSize) (fpOfNat blockSize) + 1) % UINT32_MOD

/-- Modelled from the spec:
`blocksNumber = ceil(uncompressedSize / blockSize) + 1` with the exact
integer ceiling (the spec's stated formula, for comparison with the float
computation of the source). -/
def blocksNumber_spec (inputSize blockSize : ℕ) : ℕ :=
  (inputSize + blockSize - 1) / blockSize + 1

/-- One iteration of the encode block loop (ziso.cpp lines 190-235) acting on
the output byte stream.  `payload` stands for the `compressedBytes` bytes the
block compressor produced and `raw` for its `uncompressed` flag.  The write
position (`tellp`) is the current length of `out`.  As in the source: the
payload is written first (line 215), then the recorded block start position is
quantized (line 224), then one zero byte is appended for every `i` in the
closed interval `[blockStartPosition, blockRealStartPosition]`
(lines 226-232). -/
def encode_block_step (shift : ℕ) (out : List ℕ) (payload : List ℕ) (raw : Bool) :
    ℕ × List ℕ :=
  let blockStartPosition := out.length
  let r := pos_to_index blockStartPosition shift raw
  let out1 := out ++ payload
  (r.1,
   if blockStartPosition < r.2 then
     out1 ++ List.replicate (r.2 - blockStartPosition + 1) 0
   else out1)

/-- Index entries and final write position of the encode block loop
(ziso.cpp lines 190-235), tracking positions only: each block contributes its
payload length `c` and raw flag; the position advances by the payload plus
the padding bytes the loop appends after it. -/
def encode_positions (shift : ℕ) (pos : ℕ) : List (ℕ × Bool) → List ℕ × ℕ
  | [] => ([], pos)
  | (c, raw) :: rest =>
    let r := pos_to_index pos shift raw
    let pad := if pos < r.2 then r.2 - pos + 1 else 0
    let t := encode_positions shift (pos + c + pad) rest
    (r.1 :: t.1, t.2)

/-- Completed index table of an encode run (ziso.cpp lines 190-252): the
data-block entries followed by the end-of-data sentinel entry (lines
237-240, raw flag false). -/
def encode_table (shift headerSize : ℕ) (blockResults : List (ℕ × Bool)) : List ℕ :=
  let t := encode_positions shift headerSize blockResults
  t.1 ++ [(pos_to_index t.2 shift false).1]

/-- ziso.cpp lines 78-97: magic detection; the input is handled as a ZISO
container exactly when its first four bytes are `'Z' 'I' 'S' 'O'`
(90, 73, 83, 79). -/
def is_ziso : List ℕ → Bool
  | c0 :: c1 :: c2 :: c3 :: _ =>
    c0 == 90 && c1 == 73 && c2 == 83 && c3 == 79
  | _ => false

/-- Control-flow model of `main` after the input file is opened
(ziso.cpp lines 78-295): magic detection (78-97), the overwrite check on the
destination (116-129, which forces `keepOutput` and aborts before the
destination is ever opened for writing), the truncating `std::ios::out` open
(132), the compress branch (141-253, its outcome abstracted as
`encodeOk`/`encodeBytes`) or the empty decompress branch (255-257), and the
exit cleanup (269-294) that deletes the destination on failure unless
`keepOutput` is set.  The result is
`(return code, final destination file contents, or none if deleted/absent)`. -/
def main_flow (input : List ℕ) (overwrite keepOutput : Bool)
    (dest0 : Option (List ℕ)) (encodeOk : Bool) (encodeBytes : List ℕ) :
    ℕ × Option (List ℕ) :=
  let compress := !(is_ziso input)
  if !overwrite && dest0.isSome then (1, dest0)
  else if compress then
    if encodeOk then (0, some encodeBytes)
    else if keepOutput then (1, some encodeBytes)
    else (1, none)
  else (0, some [])

/-- C1: an input larger than the 16 GB threshold does NOT select shift 4 —
the 16 GB `if` is not chained by `else` to the 8 GB `if`, so its assignment
is overwritten and a 16 GiB input (blockSize 2048, headerSize 33554460)
selects shift 3; yet a final offset of the order `inputSize + headerSize`
shifted right by 3 does not fit in 31 bits, while shifted by 4 it does. -/
theorem c1_shift_16gb_selects_3 :
    select_shift 17179869184 33554460 = 3 ∧
    ¬((17179869184 + 33554460) >>> 3 < 2 ^ 31) ∧
    (17179869184 + 33554460) >>> 4 < 2 ^ 31 := by
  decide

/-- C2: the quantization round trip is NOT the identity on every shift-aligned
offset whose quantized value fits in 31 bits: offset `2 ^ 32` (a multiple of
`2 ^ 4` with `2 ^ 32 >>> 4 = 2 ^ 28 < 2 ^ 31`) at shift 4 encodes to index
268435457, which decodes to offset 16, because both functions compute the
shifted offset in `uint32_t`. -/
theorem c2_roundtrip_truncates :
    4294967296 % 2 ^ 4 = 0 ∧
    4294967296 >>> 4 < 2 ^ 31 ∧
    pos_to_index 4294967296 4 false = (268435457, 16) ∧
    index_to_pos 268435457 4 = (16, false) ∧
    (16 : ℕ) ≠ 4294967296 := by
  decide

/-- C3: the aligned offset `pos_to_index` writes back is NOT always `≥` the
input offset: for offset `2 ^ 32` (whose quantized value `2 ^ 30` fits in 31
bits) at shift 2 the function writes back 4, far below the input offset
(which is itself already a multiple of `2 ^ 2`, so the correct aligned offset
would be `2 ^ 32`). -/
theorem c3_aligned_not_ge :
    4294967296 >>> 2 < 2 ^ 31 ∧
    pos_to_index 4294967296 2 false = (1073741825, 4) ∧
    (4 : ℕ) < 4294967296 := by
  decide

/-- C4: when quantization rounds a block's start offset up, the pipeline does
NOT place `aligned - offset` zero bytes before the payload: at shift 1 with
write position 25, the index entry decodes to offset 26 but the payload is
written at offsets 25-27 and `aligned - offset + 1 = 2` zero bytes are
appended after it (offsets 28-29), so the payload does not begin at the
offset its index entry decodes to. -/
theorem c4_padding_misplaced :
    (encode_block_step 1 (List.replicate 25 1) [7, 7, 7] true).2
      = List.replicate 25 1 ++ [7, 7, 7] ++ [0, 0] ∧
    index_to_pos (encode_block_step 1 (List.replicate 25 1) [7, 7, 7] true).1 1
      = (26, true) ∧
    (26 : ℕ) - 25 = 1 := by
  decide

/-- C5 (counterexample): when the codec yields a size equal to `srcLen`
(4 bytes, "not smaller than srcLen"), `compress_block` does NOT fall back to
verbatim storage: it returns the codec's bytes with the raw flag clear,
because the source tests `outSize > srcSize` strictly. -/
theorem c5_equal_size_not_raw :
    compress_block 4 [9, 9, 9, 9] [1, 2, 3, 4] 4 16 false
      = (4, false, [9, 9, 9, 9]) := by
  decide

/-- C5 (amended): treating the codec's returned size as arbitrary, if it is
zero or strictly greater than `srcLen` then `compress_block` stores the block
verbatim (returns `srcLen`, sets the raw flag, first `srcLen` destination
bytes are the source bytes) provided `srcLen ≤ dstCapacity`, and returns 0
(hard failure, flag untouched) when `dstCapacity < srcLen`; a nonzero codec
size at most `srcLen` is returned as-is with the raw flag clear. -/
theorem c5_compress_block_policy (codecOut srcSize dstSize : ℕ)
    (codecDst src : List ℕ) (u : Bool) :
    ((codecOut = 0 ∨ codecOut > srcSize) → srcSize ≤ dstSize →
      compress_block codecOut codecDst src srcSize dstSize u
        = (srcSize, true, src.take srcSize ++ codecDst.drop srcSize)) ∧
    ((codecOut = 0 ∨ codecOut > srcSize) → dstSize < srcSize →
      compress_block codecOut codecDst src srcSize dstSize u
        = (0, u, codecDst)) ∧
    (codecOut ≠ 0 → codecOut ≤ srcSize →
      compress_block codecOut codecDst src srcSize dstSize u
        = (codecOut, false, codecDst)) := by
  refine ⟨fun h1 h2 => ?_, fun h1 h2 => ?_, fun h1 h2 => ?_⟩ <;>
    simp only [compress_block] <;> split_ifs <;> first | rfl | omega

/-- C5 (witness): the amended statement applied at a concrete input — codec
failure (0 bytes) on a 3-byte block with capacity 4 stores the block
verbatim with the raw flag set. -/
theorem c5_compress_block_policy_witness :
    compress_block 0 [9, 9, 9] [1, 2, 3] 3 4 false
      = (3, true, List.take 3 [1, 2, 3] ++ List.drop 3 [9, 9, 9]) :=
  (c5_compress_block_policy 0 3 4 [9, 9, 9] [1, 2, 3] false).1 (Or.inl rfl)
    (by omega)

/-- C6: an accepted `--block-size` value is NOT stored as given: the source
casts it to `uint8_t`, so the accepted value 512 is stored as `512 % 256 = 0`
(and 511 is rejected, confirming 512 is on the accepted side). -/
theorem c6_blocksize_truncated :
    parse_block_size 512 = some 0 ∧ parse_block_size 511 = none := by
  decide

/-- C7: the block count computed at encode init is NOT always the exact
integer ceiling plus one: for a `2 ^ 24 + 1`-byte input with blockSize 2048
the single-precision float computation yields 8193
(`(float)16777217` rounds to `16777216`), while the exact formula of the
spec yields 8194 — the final input byte gets no block. -/
theorem c7_blocksNumber_float_wrong :
    blocksNumber_code 16777217 2048 = 8193 ∧
    blocksNumber_spec 16777217 2048 = 8194 := by
  decide

/-- C8: the completed index table does NOT satisfy the claimed extent
property: at shift 1 starting at headerSize 4194332, a block compressed to
2047 bytes followed by a raw 2048-byte block yields the table
[2097166, 2149581838, 2099215]; the raw block's entry decodes to offset
4196380 and the next entry to 4198430, an extent of 2050 bytes, not the
stored length 2048 (the payload is written at the unaligned offset and the
off-by-one padding is appended after it). -/
theorem c8_raw_extent_mismatch :
    encode_table 1 4194332 [(2047, false), (2048, true)]
      = [2097166, 2149581838, 2099215] ∧
    index_to_pos 2097166 1 = (4194332, false) ∧
    index_to_pos 2149581838 1 = (4196380, true) ∧
    index_to_pos 2099215 1 = (4198430, false) ∧
    4198430 - 4196380 = 2050 ∧ ¬(4198430 - 4196380 = 2048) := by
  decide

/-- C9: if the destination exists and overwriting was not permitted, `main`
returns 1 and the pre-existing destination is left exactly as it was — the
refusal happens before the destination is ever opened for writing, and the
forced `keepOutput` makes the on-error cleanup skip the deletion, for every
input, every initial `keepOutput` setting and every encode outcome. -/
theorem c9_existing_output_untouched (input content encodeBytes : List ℕ)
    (keepOutput encodeOk : Bool) :
    main_flow input false keepOutput (some content) encodeOk encodeBytes
      = (1, some content) :=
  rfl

/-- C10: an input starting with the ASCII magic `ZISO` takes the empty
decompression branch: whenever the destination can be opened (overwrite
permitted or no pre-existing destination), the program truncates/creates the
output, writes nothing to it, and returns 0. -/
theorem c10_ziso_empty_decompress (rest encodeBytes : List ℕ)
    (overwrite keepOutput encodeOk : Bool) (dest0 : Option (List ℕ))
    (h : overwrite = true ∨ dest0 = none) :
    main_flow (90 :: 73 :: 83 :: 79 :: rest) overwrite keepOutput dest0
      encodeOk encodeBytes = (0, some []) := by
  rcases h with h | h <;> subst h <;> simp [main_flow, is_ziso]

/-- C10 (witness): a concrete ZISO input with no pre-existing destination
yields return code 0 and an empty output file. -/
theorem c10_ziso_empty_decompress_witness :
    main_flow [90, 73, 83, 79] true false none true [] = (0, some []) :=
  c10_ziso_empty_decompress [] [] true false true none (Or.inl rfl)
